import Mathlib

/-!
# FakeLocationProvider (shell/browser/fake_location_provider.cc)

A shallow embedding of the fake geolocation provider.  The provider object is a
record of its two data members (`result_`, `callback_`) together with its
address (the value of the C++ `this` pointer).  Running a callback is the only
side effect of the class.  It is made explicit twice over: every run is
appended to a log of invocations, and the functor behind the callback is then
executed inline, so whatever calls it makes on the provider (registering
another callback, granting again) take effect before `OnPermissionGranted`
returns.
-/

namespace electron

/-! ## Data model -/

/-- Modelled from the spec: the error-code enumeration of the geoposition mojom
(not part of the sources at hand).  The spec gives the closed set
POSITION_UNAVAILABLE, PERMISSION_DENIED, TIMEOUT; the source names the first one
`kPositionUnavailable`. -/
inductive GeopositionErrorCode where
  | kPositionUnavailable
  | kPermissionDenied
  | kTimeout
  deriving DecidableEq, Repr

/-- Modelled from the spec: the error variant payload `Error{code, message,
provider_technology}` of the geoposition mojom.  The source builds it with
`GeopositionError::New(code, message, technology)`, arguments in this order. -/
structure GeopositionError where
  code : GeopositionErrorCode
  message : String
  provider_technology : String
  deriving DecidableEq, Repr

/-- Modelled from the spec: the success variant payload `Position{latitude,
longitude, accuracy, altitude?, heading?, speed?, timestamp}`.  The provider
only stores and copies these numbers, so they are kept as exact rationals. -/
structure Geoposition where
  latitude : Rat
  longitude : Rat
  accuracy : Rat
  altitude : Option Rat
  heading : Option Rat
  speed : Option Rat
  timestamp : Nat
  deriving DecidableEq

/-- Modelled from the spec: `PositionResult`, the tagged union of a position
fix and a typed error (`device::mojom::GeopositionResult` in the source). -/
inductive GeopositionResult where
  | position (p : Geoposition)
  | error (e : GeopositionError)
  deriving DecidableEq

/-- The owning pointer type `GeopositionResultPtr` of the member `result_`;
`none` is the null pointer. -/
abbrev GeopositionResultPtr := Option GeopositionResult

/-- `GeopositionError::New(code, message, technology)`. -/
def GeopositionError.New (code : GeopositionErrorCode) (message technology : String) :
    GeopositionError :=
  { code := code, message := message, provider_technology := technology }

/-- `GeopositionResult::NewError(error)`: a non-null pointer to an error
variant. -/
def GeopositionResult.NewError (e : GeopositionError) : GeopositionResultPtr :=
  some (GeopositionResult.error e)

/-- Field-by-field copy of an error payload. -/
def GeopositionError.Clone (e : GeopositionError) : GeopositionError :=
  { code := e.code, message := e.message, provider_technology := e.provider_technology }

/-- Field-by-field copy of a position payload. -/
def Geoposition.Clone (p : Geoposition) : Geoposition :=
  { latitude := p.latitude, longitude := p.longitude, accuracy := p.accuracy,
    altitude := p.altitude, heading := p.heading, speed := p.speed,
    timestamp := p.timestamp }

/-- Deep copy of a result value. -/
def GeopositionResult.Clone : GeopositionResult → GeopositionResult
  | .position p => .position p.Clone
  | .error e => .error e.Clone

/-- `result_.Clone()` on the owning pointer: cloning a null pointer gives a null
pointer, otherwise a pointer to a deep copy. -/
def GeopositionResultPtr.Clone (r : GeopositionResultPtr) : GeopositionResultPtr :=
  match r with
  | none => none
  | some v => some v.Clone

/-- Modelled from the spec: the callback handle `LocationProviderUpdateCallback`
(a repeating callback taking `(provider_reference, PositionResult)`).  A handle
either is null or refers to a bound functor, identified here by a number. -/
structure LocationProviderUpdateCallback where
  bind_state_ : Option Nat
  deriving DecidableEq, Repr

/-- `callback.is_null()`. -/
def LocationProviderUpdateCallback.is_null (c : LocationProviderUpdateCallback) : Bool :=
  c.bind_state_.isNone

/-- One run of a callback: which handle was run, and the two arguments it
received (the provider pointer and the result pointer). -/
structure Invocation where
  callback : LocationProviderUpdateCallback
  provider : Nat
  result : GeopositionResultPtr
  deriving DecidableEq

/-- The provider object: its address and its two data members. -/
structure FakeLocationProvider where
  address : Nat
  result_ : GeopositionResultPtr
  callback_ : LocationProviderUpdateCallback
  deriving DecidableEq

/-- A provider together with the log of callback invocations made so far. -/
structure World where
  provider : FakeLocationProvider
  invocations : List Invocation
  deriving DecidableEq

/-- The calls that can be made on a provider, by its owner or from inside a
callback. -/
inductive Op where
  | SetUpdateCallback (callback : LocationProviderUpdateCallback)
  | StartProvider (high_accuracy : Bool)
  | StopProvider
  | GetPosition
  | OnPermissionGranted
  deriving DecidableEq

/-- The effect of executing bound functor `f` in a given world: the world it
leaves behind, or `none` when the execution does not come back. -/
abbrev FunctorEffect := Nat → World → Option World

/-- The consumer side: for each bound functor, the calls its body makes on the
provider, in order.  The body is consumer code; it may choose its calls from
what it can see when it starts, the provider and the deliveries so far (its own
included). -/
abbrev Bodies := Nat → World → List Op

/-- `callback.Run(provider, result)`: running a null callback is a fatal error
(`none`); otherwise the invocation is logged and the bound functor is executed
inline. -/
def LocationProviderUpdateCallback.Run (c : LocationProviderUpdateCallback)
    (functors : FunctorEffect) (w : World) (provider : Nat) (result : GeopositionResultPtr) :
    Option World :=
  match c.bind_state_ with
  | none => none
  | some f =>
      functors f
        { provider := w.provider,
          invocations := w.invocations ++
            [{ callback := c, provider := provider, result := result }] }

/-! ## Member functions -/

/-- `SetUpdateCallback(callback)`: `callback_ = callback;`. -/
def FakeLocationProvider.SetUpdateCallback (p : FakeLocationProvider)
    (callback : LocationProviderUpdateCallback) : FakeLocationProvider :=
  { p with callback_ := callback }

/-- `StartProvider(high_accuracy)`: empty body. -/
def FakeLocationProvider.StartProvider (p : FakeLocationProvider) (_high_accuracy : Bool) :
    FakeLocationProvider :=
  p

/-- `StopProvider()`: empty body. -/
def FakeLocationProvider.StopProvider (p : FakeLocationProvider) : FakeLocationProvider :=
  p

/-- `GetPosition()`: `return result_.get();`. -/
def FakeLocationProvider.GetPosition (p : FakeLocationProvider) : GeopositionResultPtr :=
  p.result_

/-- `OnPermissionGranted()` on the provider of world `w`: when `callback_` is
not null, run it with `this` and a clone of `result_`.  The world returned is
the one the callback leaves behind; nothing follows the call to `Run`. -/
def FakeLocationProvider.OnPermissionGranted (functors : FunctorEffect) (w : World) :
    Option World :=
  if !w.provider.callback_.is_null then
    w.provider.callback_.Run functors w w.provider.address
      (GeopositionResultPtr.Clone w.provider.result_)
  else
    some w

/-- The constructor `FakeLocationProvider::FakeLocationProvider()` for an
object at address `a`: the members start out null and `result_` is then
assigned the position-unavailable error. -/
def FakeLocationProvider.FakeLocationProvider (a : Nat) : electron.FakeLocationProvider :=
  let fresh : electron.FakeLocationProvider :=
    { address := a, result_ := none, callback_ := { bind_state_ := none } }
  { fresh with
    result_ := GeopositionResult.NewError
      (GeopositionError.New GeopositionErrorCode.kPositionUnavailable
        "Position unavailable." "") }

/-! ## Sequences of calls -/

/-- One call.  `GetPosition` only hands out a pointer and leaves everything as
it is. -/
def step (functors : FunctorEffect) (w : World) : Op → Option World
  | .SetUpdateCallback cb =>
      some { w with provider := w.provider.SetUpdateCallback cb }
  | .StartProvider h =>
      some { w with provider := w.provider.StartProvider h }
  | .StopProvider =>
      some { w with provider := w.provider.StopProvider }
  | .GetPosition => some w
  | .OnPermissionGranted => FakeLocationProvider.OnPermissionGranted functors w

/-- A finite sequence of calls, stopping at the first one that does not come
back. -/
def runWith (functors : FunctorEffect) (w : World) : List Op → Option World
  | [] => some w
  | op :: rest =>
      match step functors w op with
      | none => none
      | some w2 => runWith functors w2 rest

/-- Executing functor bodies with callback runs nested at most `depth` deep:
the body of a functor is the sequence of calls `bodies` gives for it, and a
grant inside a body runs the registered callback one level further down.  At
depth zero no functor can be entered. -/
def functorEffect (bodies : Bodies) : Nat → FunctorEffect
  | 0 => fun _ _ => none
  | depth + 1 => fun f w => runWith (functorEffect bodies depth) w (bodies f w)

/-- A finite sequence of calls made by the owner of the provider, with callback
runs nested at most `depth` deep (`none`: the nesting goes deeper). -/
def run (bodies : Bodies) (depth : Nat) (w : World) (ops : List Op) : Option World :=
  runWith (functorEffect bodies depth) w ops

/-- A freshly constructed provider at address `a`, before any callback ran. -/
def construct (a : Nat) : World :=
  { provider := FakeLocationProvider.FakeLocationProvider a, invocations := [] }

/-- The fixed result of the fake provider. -/
def positionUnavailable : GeopositionResult :=
  GeopositionResult.error
    { code := GeopositionErrorCode.kPositionUnavailable,
      message := "Position unavailable.",
      provider_technology := "" }

/-- How many times the handle `cb` was run in a log. -/
def timesInvoked (cb : LocationProviderUpdateCallback) (log : List Invocation) : Nat :=
  (log.filter (fun i => decide (i.callback = cb))).length

/-- The invariant of the fake provider: the stored result and every delivered
result are the fixed error. -/
def OnlyUnavailable (w : World) : Prop :=
  w.provider.result_ = some positionUnavailable ∧
    ∀ i ∈ w.invocations, i.result = some positionUnavailable

/-- A call that is neither `SetUpdateCallback` nor `OnPermissionGranted`. -/
def Op.isPassive : Op → Bool
  | .StartProvider _ => true
  | .StopProvider => true
  | .GetPosition => true
  | .SetUpdateCallback _ => false
  | .OnPermissionGranted => false

/-- The functor behind `cb` never calls `SetUpdateCallback` or
`OnPermissionGranted` on the provider. -/
def PassiveCallback (bodies : Bodies) (cb : LocationProviderUpdateCallback) : Prop :=
  ∀ f, cb.bind_state_ = some f → ∀ w, ∀ op ∈ bodies f w, op.isPassive = true

/-- The functor behind `cb` never calls `OnPermissionGranted` on the
provider. -/
def NoRegrant (bodies : Bodies) (cb : LocationProviderUpdateCallback) : Prop :=
  ∀ f, cb.bind_state_ = some f → ∀ w, Op.OnPermissionGranted ∉ bodies f w

/-- Consumers whose functors make no call on the provider. -/
def noCalls : Bodies := fun _ _ => []

/-- Consumers whose functors only start the provider and read the position. -/
def pollOnly : Bodies := fun _ _ => [Op.StartProvider true, Op.GetPosition]

/-- A consumer whose functor 7 calls `OnPermissionGranted()` again the first
time it is run; every other functor makes no call. -/
def regrantOnce : Bodies := fun f w =>
  if f = 7 ∧ w.invocations.length ≤ 1 then [Op.OnPermissionGranted] else []

/-- A consumer whose functor 7 unregisters itself with
`SetUpdateCallback(null)`; every other functor makes no call. -/
def unregisterSelf : Bodies := fun f _ =>
  if f = 7 then [Op.SetUpdateCallback { bind_state_ := none }] else []

/-- A consumer whose functor 2 registers the callback bound to functor 1 and
grants again; every other functor makes no call. -/
def handOver : Bodies := fun f _ =>
  if f = 2 then [Op.SetUpdateCallback { bind_state_ := some 1 }, Op.OnPermissionGranted]
  else []

/-! ## Auxiliary facts -/

theorem GeopositionResult.Clone_eq (v : GeopositionResult) : v.Clone = v := by
  cases v <;> rfl

theorem GeopositionResultPtr.Clone_ptr_eq (r : GeopositionResultPtr) :
    GeopositionResultPtr.Clone r = r := by
  cases r with
  | none => rfl
  | some v => simp [GeopositionResultPtr.Clone, GeopositionResult.Clone_eq]

theorem bound_of_not_null (c : LocationProviderUpdateCallback) (h : c.is_null = false) :
    ∃ f, c.bind_state_ = some f := by
  cases hs : c.bind_state_ with
  | none => simp [LocationProviderUpdateCallback.is_null, hs] at h
  | some f => exact ⟨f, rfl⟩

theorem OnPermissionGranted_of_null (functors : FunctorEffect) (w : World)
    (h : w.provider.callback_.is_null = true) :
    FakeLocationProvider.OnPermissionGranted functors w = some w := by
  simp [FakeLocationProvider.OnPermissionGranted, h]

/-- With a bound callback registered, a grant logs the invocation and then does
whatever the functor does. -/
theorem OnPermissionGranted_of_bound (functors : FunctorEffect) (w : World) (f : Nat)
    (h : w.provider.callback_.bind_state_ = some f) :
    FakeLocationProvider.OnPermissionGranted functors w =
      functors f
        { provider := w.provider,
          invocations := w.invocations ++
            [{ callback := w.provider.callback_, provider := w.provider.address,
               result := w.provider.result_ }] } := by
  simp [FakeLocationProvider.OnPermissionGranted, LocationProviderUpdateCallback.is_null,
    LocationProviderUpdateCallback.Run, h, GeopositionResultPtr.Clone_ptr_eq]

theorem step_of_ne_OnPermissionGranted (functors : FunctorEffect) (w : World) (op : Op)
    (h : op ≠ Op.OnPermissionGranted) :
    ∃ w2, step functors w op = some w2 ∧ w2.invocations = w.invocations ∧
      w2.provider.result_ = w.provider.result_ ∧ w2.provider.address = w.provider.address := by
  cases op with
  | SetUpdateCallback cb => exact ⟨_, rfl, rfl, rfl, rfl⟩
  | StartProvider hacc => exact ⟨_, rfl, rfl, rfl, rfl⟩
  | StopProvider => exact ⟨_, rfl, rfl, rfl, rfl⟩
  | GetPosition => exact ⟨_, rfl, rfl, rfl, rfl⟩
  | OnPermissionGranted => exact absurd rfl h

theorem step_of_passive (functors : FunctorEffect) (w : World) (op : Op)
    (h : op.isPassive = true) : step functors w op = some w := by
  cases op with
  | SetUpdateCallback cb => simp [Op.isPassive] at h
  | StartProvider hacc => rfl
  | StopProvider => rfl
  | GetPosition => rfl
  | OnPermissionGranted => simp [Op.isPassive] at h

theorem runWith_cons (functors : FunctorEffect) (w w2 : World) (op : Op) (rest : List Op)
    (h : step functors w op = some w2) :
    runWith functors w (op :: rest) = runWith functors w2 rest := by
  simp [runWith, h]

theorem runWith_of_passive (functors : FunctorEffect) (ops : List Op) (w : World)
    (h : ∀ op ∈ ops, op.isPassive = true) : runWith functors w ops = some w := by
  induction ops with
  | nil => rfl
  | cons op rest ih =>
      rw [runWith_cons functors w w op rest
        (step_of_passive functors w op (h op (List.mem_cons_self op rest)))]
      exact ih (fun o ho => h o (List.mem_cons_of_mem op ho))

/-- A grant with a registered callback whose functor is passive logs exactly
one invocation and leaves the provider as it is. -/
theorem OnPermissionGranted_of_passive (bodies : Bodies) (depth : Nat) (w : World)
    (hn : w.provider.callback_.is_null = false)
    (hp : PassiveCallback bodies w.provider.callback_) :
    FakeLocationProvider.OnPermissionGranted (functorEffect bodies (depth + 1)) w =
      some { provider := w.provider,
             invocations := w.invocations ++
               [{ callback := w.provider.callback_, provider := w.provider.address,
                  result := w.provider.result_ }] } := by
  obtain ⟨f, hf⟩ := bound_of_not_null _ hn
  rw [OnPermissionGranted_of_bound _ w f hf]
  exact runWith_of_passive _ _ _ (hp f hf _)

theorem OnlyUnavailable_step (functors : FunctorEffect)
    (hf : ∀ f w w2, OnlyUnavailable w → functors f w = some w2 → OnlyUnavailable w2)
    (w w2 : World) (op : Op) (hw : OnlyUnavailable w)
    (h : step functors w op = some w2) : OnlyUnavailable w2 := by
  by_cases hop : op = Op.OnPermissionGranted
  · subst hop
    cases hb : w.provider.callback_.bind_state_ with
    | none =>
        have hn : w.provider.callback_.is_null = true := by
          simp [LocationProviderUpdateCallback.is_null, hb]
        have e : step functors w Op.OnPermissionGranted = some w :=
          OnPermissionGranted_of_null functors w hn
        rw [e] at h
        cases h
        exact hw
    | some f =>
        have e : step functors w Op.OnPermissionGranted = _ :=
          OnPermissionGranted_of_bound functors w f hb
        rw [e] at h
        have hinv : OnlyUnavailable
            { provider := w.provider,
              invocations := w.invocations ++
                [{ callback := w.provider.callback_, provider := w.provider.address,
                   result := w.provider.result_ }] } := by
          refine ⟨hw.1, ?_⟩
          intro i hi
          rcases List.mem_append.mp hi with hi | hi
          · exact hw.2 i hi
          · simp at hi
            rw [hi]
            exact hw.1
        exact hf f _ w2 hinv h
  · obtain ⟨w3, h1, h2, h3, _⟩ := step_of_ne_OnPermissionGranted functors w op hop
    rw [h] at h1
    cases h1
    exact ⟨h3.trans hw.1, by rw [h2]; exact hw.2⟩

theorem OnlyUnavailable_runWith (functors : FunctorEffect)
    (hf : ∀ f w w2, OnlyUnavailable w → functors f w = some w2 → OnlyUnavailable w2)
    (ops : List Op) :
    ∀ w w2 : World, OnlyUnavailable w → runWith functors w ops = some w2 →
      OnlyUnavailable w2 := by
  induction ops with
  | nil =>
      intro w w2 hw h
      simp [runWith] at h
      rw [← h]
      exact hw
  | cons op rest ih =>
      intro w w2 hw h
      cases hs : step functors w op with
      | none => simp [runWith, hs] at h
      | some w1 =>
          rw [runWith_cons functors w w1 op rest hs] at h
          exact ih w1 w2 (OnlyUnavailable_step functors hf w w1 op hw hs) h

theorem OnlyUnavailable_functorEffect (bodies : Bodies) (depth : Nat) :
    ∀ f w w2, OnlyUnavailable w → functorEffect bodies depth f w = some w2 →
      OnlyUnavailable w2 := by
  induction depth with
  | zero =>
      intro f w w2 _ h
      simp [functorEffect] at h
  | succ d ih =>
      intro f w w2 hw h
      exact OnlyUnavailable_runWith (functorEffect bodies d) ih (bodies f w) w w2 hw h

/-- Safety: whatever the consumer's functors do, a run that comes back ends in
a world where only the fixed error was stored and delivered. -/
theorem OnlyUnavailable_run (bodies : Bodies) (depth : Nat) (ops : List Op) (w w2 : World)
    (hw : OnlyUnavailable w) (h : run bodies depth w ops = some w2) : OnlyUnavailable w2 :=
  OnlyUnavailable_runWith _ (OnlyUnavailable_functorEffect bodies depth) ops w w2 hw h

theorem OnlyUnavailable_construct (a : Nat) : OnlyUnavailable (construct a) := by
  refine ⟨rfl, ?_⟩
  intro i hi
  simp [construct] at hi

/-- When every functor comes back, every sequence of calls comes back. -/
theorem runWith_total (functors : FunctorEffect)
    (hf : ∀ f w, ∃ w2, functors f w = some w2)
    (ops : List Op) : ∀ w : World, ∃ w2, runWith functors w ops = some w2 := by
  induction ops with
  | nil => intro w; exact ⟨w, rfl⟩
  | cons op rest ih =>
      intro w
      have h1 : ∃ w1, step functors w op = some w1 := by
        by_cases hop : op = Op.OnPermissionGranted
        · subst hop
          cases hb : w.provider.callback_.bind_state_ with
          | none =>
              exact ⟨w, OnPermissionGranted_of_null functors w
                (by simp [LocationProviderUpdateCallback.is_null, hb])⟩
          | some f =>
              obtain ⟨w1, hw1⟩ := hf f
                { provider := w.provider,
                  invocations := w.invocations ++
                    [{ callback := w.provider.callback_, provider := w.provider.address,
                       result := w.provider.result_ }] }
              exact ⟨w1, (OnPermissionGranted_of_bound functors w f hb).trans hw1⟩
        · obtain ⟨w1, e1, _⟩ := step_of_ne_OnPermissionGranted functors w op hop
          exact ⟨w1, e1⟩
      obtain ⟨w1, hs⟩ := h1
      obtain ⟨w2, h2⟩ := ih w1
      exact ⟨w2, by rw [runWith_cons functors w w1 op rest hs]; exact h2⟩

/-- A sequence of calls without `OnPermissionGranted` enters no functor, comes
back and leaves the invocation log as it is. -/
theorem runWith_of_no_grant (functors : FunctorEffect) (ops : List Op) :
    ∀ w : World, Op.OnPermissionGranted ∉ ops →
      ∃ w2, runWith functors w ops = some w2 ∧ w2.invocations = w.invocations := by
  induction ops with
  | nil => intro w _; exact ⟨w, rfl, rfl⟩
  | cons op rest ih =>
      intro w h
      have hop : op ≠ Op.OnPermissionGranted := fun e => h (by simp [e])
      obtain ⟨w1, e1, e2, _⟩ := step_of_ne_OnPermissionGranted functors w op hop
      obtain ⟨w2, h2, h3⟩ := ih w1 (fun hm => h (List.mem_cons_of_mem op hm))
      exact ⟨w2, by rw [runWith_cons functors w w1 op rest e1]; exact h2, h3.trans e2⟩

/-- A grant with a registered callback whose functor does not grant again comes
back having logged exactly one invocation. -/
theorem OnPermissionGranted_of_no_regrant (bodies : Bodies) (depth : Nat) (w : World)
    (hn : w.provider.callback_.is_null = false)
    (hp : NoRegrant bodies w.provider.callback_) :
    ∃ w2, step (functorEffect bodies (depth + 1)) w Op.OnPermissionGranted = some w2 ∧
      w2.invocations =
        w.invocations ++
          [{ callback := w.provider.callback_, provider := w.provider.address,
             result := w.provider.result_ }] := by
  obtain ⟨f, hf⟩ := bound_of_not_null _ hn
  obtain ⟨w2, h1, h2⟩ := runWith_of_no_grant (functorEffect bodies depth)
    (bodies f
      { provider := w.provider,
        invocations := w.invocations ++
          [{ callback := w.provider.callback_, provider := w.provider.address,
             result := w.provider.result_ }] })
    { provider := w.provider,
      invocations := w.invocations ++
        [{ callback := w.provider.callback_, provider := w.provider.address,
           result := w.provider.result_ }] } (hp f hf _)
  exact ⟨w2, (OnPermissionGranted_of_bound _ w f hf).trans h1, h2⟩

/-- When no functor body calls `OnPermissionGranted`, callback runs never nest
and every run comes back at any depth of at least one. -/
theorem run_total_of_no_nested_grant (bodies : Bodies)
    (hb : ∀ f w, Op.OnPermissionGranted ∉ bodies f w) (depth : Nat) (ops : List Op)
    (w : World) : ∃ w2, run bodies (depth + 1) w ops = some w2 :=
  runWith_total _
    (fun f w1 =>
      (runWith_of_no_grant (functorEffect bodies depth) (bodies f w1) w1 (hb f w1)).imp
        (fun _ h => h.1))
    ops w

/-- A run in which every `OnPermissionGranted` made by the owner finds a null
callback enters no functor and adds nothing to the invocation log. -/
theorem run_silent (functors : FunctorEffect) (ops : List Op) :
    ∀ w0 : World,
      (∀ i, i < ops.length → ops[i]? = some Op.OnPermissionGranted →
        ∃ w, runWith functors w0 (ops.take i) = some w ∧
          w.provider.callback_.is_null = true) →
      ∃ w, runWith functors w0 ops = some w ∧ w.invocations = w0.invocations := by
  induction ops with
  | nil => intro w0 _; exact ⟨w0, rfl, rfl⟩
  | cons op rest ih =>
      intro w0 h
      have h1 : ∃ w1, step functors w0 op = some w1 ∧ w1.invocations = w0.invocations := by
        by_cases hop : op = Op.OnPermissionGranted
        · subst hop
          obtain ⟨w, hw, hn⟩ := h 0 (by simp) (by simp)
          simp [runWith] at hw
          subst hw
          exact ⟨w0, OnPermissionGranted_of_null functors w0 hn, rfl⟩
        · obtain ⟨w1, e1, e2, _⟩ := step_of_ne_OnPermissionGranted functors w0 op hop
          exact ⟨w1, e1, e2⟩
      obtain ⟨w1, hs, hinv⟩ := h1
      have h2 : ∀ i, i < rest.length → rest[i]? = some Op.OnPermissionGranted →
          ∃ w, runWith functors w1 (rest.take i) = some w ∧
            w.provider.callback_.is_null = true := by
        intro i hi hget
        obtain ⟨w, hw, hn⟩ := h (i + 1) (by simpa using hi) (by simpa using hget)
        rw [List.take_succ_cons, runWith_cons functors w0 w1 op _ hs] at hw
        exact ⟨w, hw, hn⟩
      obtain ⟨w, hw, hwi⟩ := ih w1 h2
      exact ⟨w, by rw [runWith_cons functors w0 w1 op rest hs]; exact hw, hwi.trans hinv⟩

theorem timesInvoked_append_single (cb : LocationProviderUpdateCallback)
    (log : List Invocation) (i : Invocation) :
    timesInvoked cb (log ++ [i]) =
      timesInvoked cb log + (if i.callback = cb then 1 else 0) := by
  by_cases h : i.callback = cb <;> simp [timesInvoked, List.filter_append, h]

theorem NoRegrant_unregisterSelf (cb : LocationProviderUpdateCallback) :
    NoRegrant unregisterSelf cb := by
  intro f _ w
  unfold unregisterSelf
  split <;> simp

theorem PassiveCallback_noCalls (cb : LocationProviderUpdateCallback) :
    PassiveCallback noCalls cb := by
  intro f _ w op hop
  simp [noCalls] at hop

/-! ## The claims -/

/-- Claim C1: immediately after construction, `GetPosition()` returns a non-null
pointer to the error variant with code `kPositionUnavailable`, message
"Position unavailable." and empty technology string. -/
theorem GetPosition_after_construction (a : Nat) :
    (FakeLocationProvider.FakeLocationProvider a).GetPosition =
      some (GeopositionResult.error
        { code := GeopositionErrorCode.kPositionUnavailable,
          message := "Position unavailable.",
          provider_technology := "" }) := by
  rfl

/-- Counterexample to claim C2 as stated: the callback bound to functor 7 is
not null, and its body calls `OnPermissionGranted()` again the first time it
runs; construction, `SetUpdateCallback(cb)`, `OnPermissionGranted()` then runs
it twice, not once. -/
theorem regranting_callback_is_run_twice :
    (LocationProviderUpdateCallback.mk (some 7)).is_null = false ∧
    (run regrantOnce 2 (construct 3)
      [Op.SetUpdateCallback (LocationProviderUpdateCallback.mk (some 7)),
       Op.OnPermissionGranted]).map World.invocations =
      some [{ callback := LocationProviderUpdateCallback.mk (some 7), provider := 3,
              result := some positionUnavailable },
            { callback := LocationProviderUpdateCallback.mk (some 7), provider := 3,
              result := some positionUnavailable }] ∧
    (run regrantOnce 2 (construct 3)
      [Op.SetUpdateCallback (LocationProviderUpdateCallback.mk (some 7)),
       Op.OnPermissionGranted]).map
        (fun w => timesInvoked (LocationProviderUpdateCallback.mk (some 7)) w.invocations) =
      some 2 := by
  refine ⟨rfl, rfl, ?_⟩
  decide

/-- Claim C2, amended: for a non-null callback `cb` whose body does not call
`OnPermissionGranted` on the provider, construction followed by
`SetUpdateCallback(cb)` and `OnPermissionGranted()` completes and runs `cb`
exactly once, with the provider itself as first argument and the
position-unavailable error as the delivered result. -/
theorem grant_after_registration_delivers_once (a : Nat) (bodies : Bodies) (depth : Nat)
    (cb : LocationProviderUpdateCallback) (h : cb.is_null = false)
    (hp : NoRegrant bodies cb) :
    ∃ w, run bodies (depth + 1) (construct a)
        [Op.SetUpdateCallback cb, Op.OnPermissionGranted] = some w ∧
      w.invocations =
        [{ callback := cb, provider := (construct a).provider.address,
           result := some (GeopositionResult.error
             { code := GeopositionErrorCode.kPositionUnavailable,
               message := "Position unavailable.",
               provider_technology := "" }) }] ∧
      timesInvoked cb w.invocations = 1 ∧
      w.invocations.length = 1 := by
  obtain ⟨w, hs, hinv⟩ := OnPermissionGranted_of_no_regrant bodies depth
    { provider := (construct a).provider.SetUpdateCallback cb, invocations := [] } h hp
  have hlog : w.invocations =
      [{ callback := cb, provider := (construct a).provider.address,
         result := some (GeopositionResult.error
           { code := GeopositionErrorCode.kPositionUnavailable,
             message := "Position unavailable.",
             provider_technology := "" }) }] := by
    rw [hinv]; rfl
  refine ⟨w, ?_, hlog, ?_, ?_⟩
  · unfold run
    rw [runWith_cons _ (construct a)
        { provider := (construct a).provider.SetUpdateCallback cb, invocations := [] }
        (Op.SetUpdateCallback cb) _ rfl, runWith_cons _ _ w Op.OnPermissionGranted _ hs]
    rfl
  · rw [hlog]; simp [timesInvoked]
  · rw [hlog]; rfl

theorem grant_after_registration_delivers_once_witness :
    (LocationProviderUpdateCallback.mk (some 7)).is_null = false ∧
    NoRegrant unregisterSelf (LocationProviderUpdateCallback.mk (some 7)) ∧
    ∃ w, run unregisterSelf (0 + 1) (construct 3)
        [Op.SetUpdateCallback (LocationProviderUpdateCallback.mk (some 7)),
         Op.OnPermissionGranted] = some w ∧
      w.invocations =
        [{ callback := LocationProviderUpdateCallback.mk (some 7),
           provider := (construct 3).provider.address,
           result := some (GeopositionResult.error
             { code := GeopositionErrorCode.kPositionUnavailable,
               message := "Position unavailable.",
               provider_technology := "" }) }] ∧
      timesInvoked (LocationProviderUpdateCallback.mk (some 7)) w.invocations = 1 ∧
      w.invocations.length = 1 :=
  ⟨rfl, NoRegrant_unregisterSelf _,
    grant_after_registration_delivers_once 3 unregisterSelf 0
      (LocationProviderUpdateCallback.mk (some 7)) rfl (NoRegrant_unregisterSelf _)⟩

/-- Counterexample to claim C3 as stated: a provider with the non-null callback
bound to functor 7 registered, whose body calls `SetUpdateCallback(null)`; two
consecutive calls of `OnPermissionGranted()` deliver once, not twice, and the
registered callback is null afterwards. -/
theorem unregistering_callback_is_run_once :
    ((construct 3).provider.SetUpdateCallback
        (LocationProviderUpdateCallback.mk (some 7))).callback_.is_null = false ∧
    run unregisterSelf 1
      { provider := (construct 3).provider.SetUpdateCallback
          (LocationProviderUpdateCallback.mk (some 7)),
        invocations := [] }
      [Op.OnPermissionGranted, Op.OnPermissionGranted] =
      some { provider := (construct 3).provider.SetUpdateCallback
               (LocationProviderUpdateCallback.mk none),
             invocations :=
               [{ callback := LocationProviderUpdateCallback.mk (some 7), provider := 3,
                  result := some positionUnavailable }] } := by
  exact ⟨rfl, rfl⟩

/-- Claim C3, amended: with a non-null callback registered whose body calls
neither `SetUpdateCallback` nor `OnPermissionGranted` on the provider, two
consecutive calls of `OnPermissionGranted()` both complete and append exactly
two invocations to the log, each carrying the value `GetPosition()` returns at
the time of that call, and the provider (stored result and callback) is the
same after each call. -/
theorem grant_twice_delivers_twice (bodies : Bodies) (depth : Nat) (w : World)
    (h : w.provider.callback_.is_null = false)
    (hp : PassiveCallback bodies w.provider.callback_) :
    ∃ w1 w2,
      FakeLocationProvider.OnPermissionGranted (functorEffect bodies (depth + 1)) w = some w1 ∧
      FakeLocationProvider.OnPermissionGranted (functorEffect bodies (depth + 1)) w1 = some w2 ∧
      w1.invocations =
        w.invocations ++ [{ callback := w.provider.callback_, provider := w.provider.address,
                            result := w.provider.GetPosition }] ∧
      w2.invocations =
        w1.invocations ++ [{ callback := w1.provider.callback_,
                             provider := w1.provider.address,
                             result := w1.provider.GetPosition }] ∧
      w2.invocations.length = w.invocations.length + 2 ∧
      w1.provider = w.provider ∧ w2.provider = w.provider ∧
      w2.provider.GetPosition = w.provider.GetPosition ∧
      w2.provider.callback_ = w.provider.callback_ ∧
      run bodies (depth + 1) w [Op.OnPermissionGranted, Op.OnPermissionGranted] = some w2 := by
  have e1 := OnPermissionGranted_of_passive bodies depth w h hp
  have e2 := OnPermissionGranted_of_passive bodies depth
    { provider := w.provider,
      invocations := w.invocations ++
        [{ callback := w.provider.callback_, provider := w.provider.address,
           result := w.provider.result_ }] } h hp
  have s1 : step (functorEffect bodies (depth + 1)) w Op.OnPermissionGranted = _ := e1
  have s2 : step (functorEffect bodies (depth + 1))
      { provider := w.provider,
        invocations := w.invocations ++
          [{ callback := w.provider.callback_, provider := w.provider.address,
             result := w.provider.result_ }] } Op.OnPermissionGranted = _ := e2
  refine ⟨{ provider := w.provider,
            invocations := w.invocations ++
              [{ callback := w.provider.callback_, provider := w.provider.address,
                 result := w.provider.result_ }] },
    { provider := w.provider,
      invocations := (w.invocations ++
        [{ callback := w.provider.callback_, provider := w.provider.address,
           result := w.provider.result_ }]) ++
        [{ callback := w.provider.callback_, provider := w.provider.address,
           result := w.provider.result_ }] },
    e1, e2, rfl, rfl, ?_, rfl, rfl, rfl, rfl, ?_⟩
  · simp
  · unfold run
    rw [runWith_cons _ w _ Op.OnPermissionGranted _ s1,
      runWith_cons _ _ _ Op.OnPermissionGranted _ s2]
    rfl

theorem grant_twice_delivers_twice_witness :
    ({ provider := (construct 3).provider.SetUpdateCallback
         (LocationProviderUpdateCallback.mk (some 7)),
       invocations := [] } : World).provider.callback_.is_null = false ∧
    PassiveCallback noCalls
      ({ provider := (construct 3).provider.SetUpdateCallback
           (LocationProviderUpdateCallback.mk (some 7)),
         invocations := [] } : World).provider.callback_ ∧
    ∃ w2, run noCalls (0 + 1)
        { provider := (construct 3).provider.SetUpdateCallback
            (LocationProviderUpdateCallback.mk (some 7)),
          invocations := [] }
        [Op.OnPermissionGranted, Op.OnPermissionGranted] = some w2 ∧
      w2.invocations.length = 2 ∧
      w2.provider = (construct 3).provider.SetUpdateCallback
        (LocationProviderUpdateCallback.mk (some 7)) := by
  obtain ⟨w1, w2, _, _, _, _, hlen, _, hprov, _, _, hrun⟩ :=
    grant_twice_delivers_twice noCalls 0
      { provider := (construct 3).provider.SetUpdateCallback
          (LocationProviderUpdateCallback.mk (some 7)),
        invocations := [] } rfl (PassiveCallback_noCalls _)
  exact ⟨rfl, PassiveCallback_noCalls _, w2, hrun, by simpa using hlen, hprov⟩

/-- Claim C4: when no callback is registered, `OnPermissionGranted()` completes
without failure, delivers nothing (the invocation log is unchanged) and leaves
the provider unchanged, whatever the consumer's functors would do. -/
theorem grant_without_callback_is_silent (functors : FunctorEffect) (w : World)
    (h : w.provider.callback_.is_null = true) :
    FakeLocationProvider.OnPermissionGranted functors w = some w := by
  exact OnPermissionGranted_of_null functors w h

theorem grant_without_callback_is_silent_witness :
    (construct 3).provider.callback_.is_null = true ∧
    FakeLocationProvider.OnPermissionGranted (functorEffect regrantOnce 2) (construct 3) =
      some (construct 3) :=
  ⟨rfl, grant_without_callback_is_silent (functorEffect regrantOnce 2) (construct 3) rfl⟩

/-- Counterexample to claim C5 as stated: the callback bound to functor 7 is
not null, and its body calls `OnPermissionGranted()` again the first time it
runs; construction, `OnPermissionGranted()`, `SetUpdateCallback(cb)`,
`OnPermissionGranted()` then runs it twice in total, not once. -/
theorem late_regranting_callback_is_run_twice :
    (LocationProviderUpdateCallback.mk (some 7)).is_null = false ∧
    (run regrantOnce 2 (construct 3)
      [Op.OnPermissionGranted,
       Op.SetUpdateCallback (LocationProviderUpdateCallback.mk (some 7)),
       Op.OnPermissionGranted]).map World.invocations =
      some [{ callback := LocationProviderUpdateCallback.mk (some 7), provider := 3,
              result := some positionUnavailable },
            { callback := LocationProviderUpdateCallback.mk (some 7), provider := 3,
              result := some positionUnavailable }] ∧
    (run regrantOnce 2 (construct 3)
      [Op.OnPermissionGranted,
       Op.SetUpdateCallback (LocationProviderUpdateCallback.mk (some 7)),
       Op.OnPermissionGranted]).map
        (fun w => timesInvoked (LocationProviderUpdateCallback.mk (some 7)) w.invocations) =
      some 2 := by
  refine ⟨rfl, rfl, ?_⟩
  decide

/-- Claim C5, amended: for a non-null callback `cb` whose body does not call
`OnPermissionGranted` on the provider, construction followed by
`OnPermissionGranted()` with no callback set, then `SetUpdateCallback(cb)`, then
`OnPermissionGranted()` runs `cb` exactly once in total: nothing is delivered by
the first grant, nothing is replayed by the registration, and the second grant
delivers the position-unavailable error. -/
theorem late_registration_delivers_once (a : Nat) (bodies : Bodies) (depth : Nat)
    (cb : LocationProviderUpdateCallback) (h : cb.is_null = false)
    (hp : NoRegrant bodies cb) :
    ∃ w1 w2 w3,
      run bodies (depth + 1) (construct a) [Op.OnPermissionGranted] = some w1 ∧
      run bodies (depth + 1) (construct a)
        [Op.OnPermissionGranted, Op.SetUpdateCallback cb] = some w2 ∧
      run bodies (depth + 1) (construct a)
        [Op.OnPermissionGranted, Op.SetUpdateCallback cb, Op.OnPermissionGranted] = some w3 ∧
      w1.invocations = [] ∧
      w2.invocations = [] ∧
      w3.invocations =
        [{ callback := cb, provider := (construct a).provider.address,
           result := some positionUnavailable }] ∧
      timesInvoked cb w3.invocations = 1 := by
  have hs0 : step (functorEffect bodies (depth + 1)) (construct a) Op.OnPermissionGranted =
      some (construct a) :=
    OnPermissionGranted_of_null _ (construct a) rfl
  obtain ⟨w3, hs2, hinv⟩ := OnPermissionGranted_of_no_regrant bodies depth
    { provider := (construct a).provider.SetUpdateCallback cb, invocations := [] } h hp
  have hlog : w3.invocations =
      [{ callback := cb, provider := (construct a).provider.address,
         result := some positionUnavailable }] := by
    rw [hinv]; rfl
  refine ⟨construct a,
    { provider := (construct a).provider.SetUpdateCallback cb, invocations := [] },
    w3, ?_, ?_, ?_, rfl, rfl, hlog, ?_⟩
  · unfold run
    rw [runWith_cons _ (construct a) _ Op.OnPermissionGranted _ hs0]
    rfl
  · unfold run
    rw [runWith_cons _ (construct a) _ Op.OnPermissionGranted _ hs0]
    rfl
  · unfold run
    rw [runWith_cons _ (construct a) _ Op.OnPermissionGranted _ hs0,
      runWith_cons _ (construct a)
        { provider := (construct a).provider.SetUpdateCallback cb, invocations := [] }
        (Op.SetUpdateCallback cb) _ rfl,
      runWith_cons _ _ w3 Op.OnPermissionGranted _ hs2]
    rfl
  · rw [hlog]; simp [timesInvoked]

theorem late_registration_delivers_once_witness :
    (LocationProviderUpdateCallback.mk (some 7)).is_null = false ∧
    NoRegrant unregisterSelf (LocationProviderUpdateCallback.mk (some 7)) ∧
    ∃ w1 w2 w3,
      run unregisterSelf (0 + 1) (construct 3) [Op.OnPermissionGranted] = some w1 ∧
      run unregisterSelf (0 + 1) (construct 3)
        [Op.OnPermissionGranted,
         Op.SetUpdateCallback (LocationProviderUpdateCallback.mk (some 7))] = some w2 ∧
      run unregisterSelf (0 + 1) (construct 3)
        [Op.OnPermissionGranted,
         Op.SetUpdateCallback (LocationProviderUpdateCallback.mk (some 7)),
         Op.OnPermissionGranted] = some w3 ∧
      w1.invocations = [] ∧
      w2.invocations = [] ∧
      w3.invocations =
        [{ callback := LocationProviderUpdateCallback.mk (some 7),
           provider := (construct 3).provider.address,
           result := some positionUnavailable }] ∧
      timesInvoked (LocationProviderUpdateCallback.mk (some 7)) w3.invocations = 1 :=
  ⟨rfl, NoRegrant_unregisterSelf _,
    late_registration_delivers_once 3 unregisterSelf 0
      (LocationProviderUpdateCallback.mk (some 7)) rfl (NoRegrant_unregisterSelf _)⟩

/-- Counterexample to claim C6 as stated: the callbacks bound to functors 1 and
2 are distinct and not null, and the body of functor 2 registers callback 1 and
grants again; after `SetUpdateCallback(cb1)`, `SetUpdateCallback(cb2)`, one
`OnPermissionGranted()` runs `cb2` and then `cb1`, so `cb1` is invoked. -/
theorem replaced_callback_is_run_again :
    LocationProviderUpdateCallback.mk (some 1) ≠ LocationProviderUpdateCallback.mk (some 2) ∧
    (LocationProviderUpdateCallback.mk (some 1)).is_null = false ∧
    (LocationProviderUpdateCallback.mk (some 2)).is_null = false ∧
    (run handOver 2 (construct 3)
      [Op.SetUpdateCallback (LocationProviderUpdateCallback.mk (some 1)),
       Op.SetUpdateCallback (LocationProviderUpdateCallback.mk (some 2)),
       Op.OnPermissionGranted]).map World.invocations =
      some [{ callback := LocationProviderUpdateCallback.mk (some 2), provider := 3,
              result := some positionUnavailable },
            { callback := LocationProviderUpdateCallback.mk (some 1), provider := 3,
              result := some positionUnavailable }] ∧
    (run handOver 2 (construct 3)
      [Op.SetUpdateCallback (LocationProviderUpdateCallback.mk (some 1)),
       Op.SetUpdateCallback (LocationProviderUpdateCallback.mk (some 2)),
       Op.OnPermissionGranted]).map
        (fun w => timesInvoked (LocationProviderUpdateCallback.mk (some 1)) w.invocations) =
      some 1 := by
  refine ⟨by decide, rfl, rfl, rfl, ?_⟩
  decide

/-- Claim C6, amended: for distinct callbacks `cb1` and `cb2`, with `cb2`
non-null and its body not calling `OnPermissionGranted` on the provider, in any
provider state, `SetUpdateCallback(cb1)` followed by `SetUpdateCallback(cb2)`
runs no callback, and a subsequent `OnPermissionGranted()` runs `cb2` exactly
once and `cb1` not at all. -/
theorem last_registration_wins (bodies : Bodies) (depth : Nat) (w : World)
    (cb1 cb2 : LocationProviderUpdateCallback)
    (hne : cb1 ≠ cb2) (h2 : cb2.is_null = false) (hp : NoRegrant bodies cb2) :
    ∃ w1 w2 w3,
      step (functorEffect bodies (depth + 1)) w (Op.SetUpdateCallback cb1) = some w1 ∧
      step (functorEffect bodies (depth + 1)) w1 (Op.SetUpdateCallback cb2) = some w2 ∧
      step (functorEffect bodies (depth + 1)) w2 Op.OnPermissionGranted = some w3 ∧
      run bodies (depth + 1) w
        [Op.SetUpdateCallback cb1, Op.SetUpdateCallback cb2, Op.OnPermissionGranted] =
        some w3 ∧
      w1.invocations = w.invocations ∧
      w2.invocations = w.invocations ∧
      w3.invocations =
        w.invocations ++ [{ callback := cb2, provider := w.provider.address,
                            result := w.provider.GetPosition }] ∧
      timesInvoked cb2 w3.invocations = timesInvoked cb2 w.invocations + 1 ∧
      timesInvoked cb1 w3.invocations = timesInvoked cb1 w.invocations := by
  obtain ⟨w3, hs, hinv⟩ := OnPermissionGranted_of_no_regrant bodies depth
    { provider := (w.provider.SetUpdateCallback cb1).SetUpdateCallback cb2,
      invocations := w.invocations } h2 hp
  have hlog : w3.invocations =
      w.invocations ++ [{ callback := cb2, provider := w.provider.address,
                          result := w.provider.GetPosition }] := by
    rw [hinv]; rfl
  refine ⟨{ provider := w.provider.SetUpdateCallback cb1, invocations := w.invocations },
    { provider := (w.provider.SetUpdateCallback cb1).SetUpdateCallback cb2,
      invocations := w.invocations },
    w3, rfl, rfl, hs, ?_, rfl, rfl, hlog, ?_, ?_⟩
  · unfold run
    rw [runWith_cons _ w
        { provider := w.provider.SetUpdateCallback cb1, invocations := w.invocations }
        (Op.SetUpdateCallback cb1) _ rfl,
      runWith_cons _
        { provider := w.provider.SetUpdateCallback cb1, invocations := w.invocations }
        { provider := (w.provider.SetUpdateCallback cb1).SetUpdateCallback cb2,
          invocations := w.invocations }
        (Op.SetUpdateCallback cb2) _ rfl,
      runWith_cons _ _ w3 Op.OnPermissionGranted _ hs]
    rfl
  · rw [hlog, timesInvoked_append_single]; simp
  · rw [hlog, timesInvoked_append_single]; simp [Ne.symm hne]

theorem last_registration_wins_witness :
    LocationProviderUpdateCallback.mk (some 1) ≠ LocationProviderUpdateCallback.mk (some 2) ∧
    (LocationProviderUpdateCallback.mk (some 2)).is_null = false ∧
    NoRegrant pollOnly (LocationProviderUpdateCallback.mk (some 2)) ∧
    ∃ w1 w2 w3,
      step (functorEffect pollOnly (0 + 1)) (construct 3)
        (Op.SetUpdateCallback (LocationProviderUpdateCallback.mk (some 1))) = some w1 ∧
      step (functorEffect pollOnly (0 + 1)) w1
        (Op.SetUpdateCallback (LocationProviderUpdateCallback.mk (some 2))) = some w2 ∧
      step (functorEffect pollOnly (0 + 1)) w2 Op.OnPermissionGranted = some w3 ∧
      run pollOnly (0 + 1) (construct 3)
        [Op.SetUpdateCallback (LocationProviderUpdateCallback.mk (some 1)),
         Op.SetUpdateCallback (LocationProviderUpdateCallback.mk (some 2)),
         Op.OnPermissionGranted] = some w3 ∧
      w1.invocations = (construct 3).invocations ∧
      w2.invocations = (construct 3).invocations ∧
      w3.invocations =
        (construct 3).invocations ++
          [{ callback := LocationProviderUpdateCallback.mk (some 2),
             provider := (construct 3).provider.address,
             result := (construct 3).provider.GetPosition }] ∧
      timesInvoked (LocationProviderUpdateCallback.mk (some 2)) w3.invocations =
        timesInvoked (LocationProviderUpdateCallback.mk (some 2)) (construct 3).invocations + 1 ∧
      timesInvoked (LocationProviderUpdateCallback.mk (some 1)) w3.invocations =
        timesInvoked (LocationProviderUpdateCallback.mk (some 1)) (construct 3).invocations :=
  ⟨by decide, rfl, (by intro f _ w; simp [pollOnly]),
    last_registration_wins pollOnly 0 (construct 3) (LocationProviderUpdateCallback.mk (some 1))
      (LocationProviderUpdateCallback.mk (some 2)) (by decide) rfl
      (by intro f _ w; simp [pollOnly])⟩

/-- Claim C7: for every finite sequence of calls on a freshly constructed
provider and every consumer, whatever its functors call back: after the whole
sequence and after every initial segment, `GetPosition()` returns the fixed
position-unavailable error and every result in the invocation log is that fixed
error; a call other than `OnPermissionGranted` always completes and never adds
to the invocation log; and when no functor body calls `OnPermissionGranted`
(in particular when the functors make no call at all) every such run
completes. -/
theorem fake_provider_only_reports_unavailable (a : Nat) (bodies : Bodies) (depth : Nat)
    (ops : List Op) :
    (∀ n w, run bodies depth (construct a) (ops.take n) = some w →
      w.provider.GetPosition =
        some (GeopositionResult.error
          { code := GeopositionErrorCode.kPositionUnavailable,
            message := "Position unavailable.",
            provider_technology := "" }) ∧
      ∀ i ∈ w.invocations, i.result =
        some (GeopositionResult.error
          { code := GeopositionErrorCode.kPositionUnavailable,
            message := "Position unavailable.",
            provider_technology := "" })) ∧
    ((∀ f w, Op.OnPermissionGranted ∉ bodies f w) →
      (∃ w, run bodies (depth + 1) (construct a) ops = some w ∧
        w.provider.GetPosition =
          some (GeopositionResult.error
            { code := GeopositionErrorCode.kPositionUnavailable,
              message := "Position unavailable.",
              provider_technology := "" }) ∧
        ∀ i ∈ w.invocations, i.result =
          some (GeopositionResult.error
            { code := GeopositionErrorCode.kPositionUnavailable,
              message := "Position unavailable.",
              provider_technology := "" })) ∧
      (∀ n, ∃ w, run bodies (depth + 1) (construct a) (ops.take n) = some w ∧
        w.provider.GetPosition =
          some (GeopositionResult.error
            { code := GeopositionErrorCode.kPositionUnavailable,
              message := "Position unavailable.",
              provider_technology := "" }))) ∧
    (∀ (functors : FunctorEffect) (w : World) (op : Op), op ≠ Op.OnPermissionGranted →
      ∃ w2, step functors w op = some w2 ∧ w2.invocations = w.invocations) := by
  refine ⟨?_, ?_, ?_⟩
  · intro n w hw
    exact OnlyUnavailable_run bodies depth (ops.take n) (construct a) w
      (OnlyUnavailable_construct a) hw
  · intro hb
    refine ⟨?_, ?_⟩
    · obtain ⟨w, hw⟩ := run_total_of_no_nested_grant bodies hb depth ops (construct a)
      have hinv := OnlyUnavailable_run bodies (depth + 1) ops (construct a) w
        (OnlyUnavailable_construct a) hw
      exact ⟨w, hw, hinv.1, hinv.2⟩
    · intro n
      obtain ⟨w, hw⟩ := run_total_of_no_nested_grant bodies hb depth (ops.take n) (construct a)
      have hinv := OnlyUnavailable_run bodies (depth + 1) (ops.take n) (construct a) w
        (OnlyUnavailable_construct a) hw
      exact ⟨w, hw, hinv.1⟩
  · intro functors w op hop
    obtain ⟨w2, h1, h2, _⟩ := step_of_ne_OnPermissionGranted functors w op hop
    exact ⟨w2, h1, h2⟩

theorem fake_provider_only_reports_unavailable_witness :
    (∀ f w, Op.OnPermissionGranted ∉ unregisterSelf f w) ∧
    ∃ w, run unregisterSelf (0 + 1) (construct 3)
        [Op.SetUpdateCallback (LocationProviderUpdateCallback.mk (some 7)),
         Op.OnPermissionGranted, Op.GetPosition, Op.OnPermissionGranted] = some w ∧
      w.provider.GetPosition =
        some (GeopositionResult.error
          { code := GeopositionErrorCode.kPositionUnavailable,
            message := "Position unavailable.",
            provider_technology := "" }) ∧
      ∀ i ∈ w.invocations, i.result =
        some (GeopositionResult.error
          { code := GeopositionErrorCode.kPositionUnavailable,
            message := "Position unavailable.",
            provider_technology := "" }) :=
  ⟨fun f w => NoRegrant_unregisterSelf (LocationProviderUpdateCallback.mk (some f)) f rfl w,
    ((fake_provider_only_reports_unavailable 3 unregisterSelf 0
      [Op.SetUpdateCallback (LocationProviderUpdateCallback.mk (some 7)),
       Op.OnPermissionGranted, Op.GetPosition, Op.OnPermissionGranted]).2.1
      (fun f w => NoRegrant_unregisterSelf (LocationProviderUpdateCallback.mk (some f)) f rfl w)).1⟩

/-- Claim C8: in every provider state, `StopProvider()` completes and changes
nothing: the invocation log, the registered callback and the value returned by
`GetPosition()` are the same before and after; this holds in particular on a
freshly constructed provider, where `StartProvider` was never called. -/
theorem StopProvider_has_no_effect (functors : FunctorEffect) (w : World) :
    step functors w Op.StopProvider = some w ∧
    w.provider.StopProvider = w.provider ∧
    w.provider.StopProvider.GetPosition = w.provider.GetPosition ∧
    w.provider.StopProvider.callback_ = w.provider.callback_ ∧
    (∀ a bodies depth, run bodies depth (construct a) [Op.StopProvider] = some (construct a)) := by
  exact ⟨rfl, rfl, rfl, rfl, fun _ _ _ => rfl⟩

/-- Claim C9: in every provider state and for all booleans `h1`, `h2`,
`StartProvider(h1)` followed by `StartProvider(h2)` completes and ends in the
same state (same `GetPosition()` value, same callback, same invocation log) as
the single call `StartProvider(h1)`. -/
theorem StartProvider_idempotent (bodies : Bodies) (depth : Nat) (w : World) (h1 h2 : Bool) :
    run bodies depth w [Op.StartProvider h1, Op.StartProvider h2] =
      run bodies depth w [Op.StartProvider h1] ∧
    (∃ w1, run bodies depth w [Op.StartProvider h1] = some w1) ∧
    run bodies depth w [Op.StartProvider h1, Op.StartProvider h2] = some w ∧
    (w.provider.StartProvider h1).StartProvider h2 = w.provider.StartProvider h1 := by
  exact ⟨rfl, ⟨_, rfl⟩, rfl, rfl⟩

/-- Counterexample to claim C10 as stated: on a freshly constructed provider the
sequence `SetUpdateCallback(cb)`, `OnPermissionGranted()` contains no
`StartProvider` call, and the callback's body makes no call either, yet the
callback is run once. -/
theorem invocation_without_StartProvider :
    (∀ h, Op.StartProvider h ∉
      [Op.SetUpdateCallback (LocationProviderUpdateCallback.mk (some 7)),
       Op.OnPermissionGranted]) ∧
    (run noCalls 1 (construct 3)
      [Op.SetUpdateCallback (LocationProviderUpdateCallback.mk (some 7)),
       Op.OnPermissionGranted]).map World.invocations =
      some [{ callback := LocationProviderUpdateCallback.mk (some 7),
              provider := 3,
              result := some positionUnavailable }] := by
  refine ⟨?_, rfl⟩
  intro h hmem
  simp at hmem

/-- Claim C10, amended: for every finite sequence of calls on a freshly
constructed provider, no callback invocation occurs before
`OnPermissionGranted` has been called with a non-null callback registered; a
sequence in which every `OnPermissionGranted` finds a null callback completes
with an empty invocation log.  `StartProvider` plays no part: it completes and
leaves the state as it is. -/
theorem no_invocation_before_grant_with_callback (a : Nat) (bodies : Bodies) (depth : Nat)
    (ops : List Op)
    (h : ∀ i, i < ops.length → ops[i]? = some Op.OnPermissionGranted →
      ∃ w, run bodies depth (construct a) (ops.take i) = some w ∧
        w.provider.callback_.is_null = true) :
    (∃ w, run bodies depth (construct a) ops = some w ∧ w.invocations = []) ∧
    (∀ (functors : FunctorEffect) (w : World) (high_accuracy : Bool),
      step functors w (Op.StartProvider high_accuracy) = some w) := by
  refine ⟨?_, fun _ _ _ => rfl⟩
  obtain ⟨w, hw, hi⟩ := run_silent (functorEffect bodies depth) ops (construct a) h
  exact ⟨w, hw, hi⟩

theorem no_invocation_before_grant_with_callback_witness :
    (∀ i, i < [Op.StartProvider true, Op.OnPermissionGranted,
               Op.SetUpdateCallback (LocationProviderUpdateCallback.mk (some 7)),
               Op.StopProvider].length →
      [Op.StartProvider true, Op.OnPermissionGranted,
        Op.SetUpdateCallback (LocationProviderUpdateCallback.mk (some 7)),
        Op.StopProvider][i]? = some Op.OnPermissionGranted →
      ∃ w, run regrantOnce 0 (construct 3)
          ([Op.StartProvider true, Op.OnPermissionGranted,
            Op.SetUpdateCallback (LocationProviderUpdateCallback.mk (some 7)),
            Op.StopProvider].take i) = some w ∧
        w.provider.callback_.is_null = true) ∧
    ((∃ w, run regrantOnce 0 (construct 3)
        [Op.StartProvider true, Op.OnPermissionGranted,
         Op.SetUpdateCallback (LocationProviderUpdateCallback.mk (some 7)),
         Op.StopProvider] = some w ∧ w.invocations = []) ∧
      (∀ (functors : FunctorEffect) (w : World) (high_accuracy : Bool),
        step functors w (Op.StartProvider high_accuracy) = some w)) := by
  have hyp : ∀ i, i < [Op.StartProvider true, Op.OnPermissionGranted,
               Op.SetUpdateCallback (LocationProviderUpdateCallback.mk (some 7)),
               Op.StopProvider].length →
      [Op.StartProvider true, Op.OnPermissionGranted,
        Op.SetUpdateCallback (LocationProviderUpdateCallback.mk (some 7)),
        Op.StopProvider][i]? = some Op.OnPermissionGranted →
      ∃ w, run regrantOnce 0 (construct 3)
          ([Op.StartProvider true, Op.OnPermissionGranted,
            Op.SetUpdateCallback (LocationProviderUpdateCallback.mk (some 7)),
            Op.StopProvider].take i) = some w ∧
        w.provider.callback_.is_null = true := by
    intro i hi hget
    match i, hi, hget with
    | 0, _, hget => simp at hget
    | 1, _, _ => exact ⟨construct 3, rfl, rfl⟩
    | 2, _, hget => simp at hget
    | 3, _, hget => simp at hget
    | n + 4, hi, _ => simp at hi
  exact ⟨hyp, no_invocation_before_grant_with_callback 3 regrantOnce 0 _ hyp⟩

end electron
